import Mathlib

/-!
Verification of the time-series aggregation and derived-metrics pipeline of the
monitoramento dashboard (src/views/monitoramento.py, src/views/cemaden.py and
the earlier revision src/views/bkp/monitoramento.py).

Conventions of the embedding:
* Python/pandas float values that may be NaN are modelled by `PyVal`
  (`nan` or a rational number); Python comparison semantics on NaN
  (every comparison is false) are captured by `PyVal.gtN` / `PyVal.geN`.
* Timestamps are rationals counting minutes; `timedelta(hours=h)` is `60*h`.
* Strings are modelled by Lean `String` / `List Char`.
-/

namespace Monitoramento

/-- A pandas cell value: either NaN (missing) or a numeric value. -/
inductive PyVal where
  | nan : PyVal
  | num : ℚ → PyVal
deriving DecidableEq

/-- Python `v > c` for a possibly-NaN value: NaN compares false to everything. -/
def PyVal.gtN (v : PyVal) (c : ℚ) : Bool :=
  match v with
  | .nan => false
  | .num q => decide (c < q)

/-- Python `v >= c` for a possibly-NaN value: NaN compares false to everything. -/
def PyVal.geN (v : PyVal) (c : ℚ) : Bool :=
  match v with
  | .nan => false
  | .num q => decide (c ≤ q)

/-- `pd.isna(v)`. -/
def PyVal.isna : PyVal → Bool
  | .nan => true
  | .num _ => false

/-- src/views/cemaden.py, `get_nivel_alerta` (lines 50-59).  The threshold
constants come from the `LIMIARES` table: `CRÍTICO.min = 70`,
`ATENÇÃO.min = 30`, `OBSERVAÇÃO.min = 10`. -/
def get_nivel_alerta (valor : PyVal) : String :=
  if valor.gtN 70 then "CRÍTICO"
  else if valor.geN 30 then "ATENÇÃO"
  else if valor.geN 10 then "OBSERVAÇÃO"
  else "NORMAL"

/-- src/views/cemaden.py, `get_categoria_status` (lines 74-78). -/
def cemaden_get_categoria_status (v : PyVal) : String :=
  if v.gtN 70 then "CRÍTICO"
  else if v.geN 30 then "ATENÇÃO"
  else if v.geN 10 then "OBSERVAÇÃO"
  else "NORMAL"

/-- src/views/monitoramento.py, `get_categoria_status` (lines 41-46). -/
def mon_get_categoria_status (v : PyVal) : String :=
  if v.isna then "SEM DADOS"
  else if v.gtN 70 then "CRÍTICO (>70mm)"
  else if v.geN 30 then "ATENÇÃO (30-70mm)"
  else if v.geN 10 then "OBSERVAÇÃO (10-30mm)"
  else "NORMAL (<10mm)"

/-- src/views/bkp/monitoramento.py, `get_categoria_status` (lines 36-40);
this earlier revision has no NaN check. -/
def bkp_get_categoria_status (v : PyVal) : String :=
  if v.gtN 70 then "CRÍTICO (>70mm)"
  else if v.geN 30 then "ATENÇÃO (30-70mm)"
  else if v.geN 10 then "OBSERVAÇÃO (10-30mm)"
  else "NORMAL (<10mm)"

/-- C1 counterexample: the claim says `classify(70.0) = CRÍTICO` (the boundary
value takes the higher category), but every classifier in the source uses a
strict `> 70` test, so the 24h total `70.0` is classified ATENÇÃO, not
CRÍTICO. -/
theorem C1_counterexample :
    get_nivel_alerta (PyVal.num 70) = "ATENÇÃO"
    ∧ mon_get_categoria_status (PyVal.num 70) = "ATENÇÃO (30-70mm)"
    ∧ "ATENÇÃO" ≠ "CRÍTICO" := by
  decide

/-- C1 amended: the classifier maps x to NORMAL when x < 10, OBSERVAÇÃO when
10 ≤ x < 30, ATENÇÃO when 30 ≤ x ≤ 70, and CRÍTICO when x > 70; in particular
classify(69.9) = ATENÇÃO and classify(70.0) = ATENÇÃO (the boundary value 70
takes the lower category). -/
theorem C1_amended (q : ℚ) :
    (q < 10 → get_nivel_alerta (PyVal.num q) = "NORMAL")
    ∧ (10 ≤ q → q < 30 → get_nivel_alerta (PyVal.num q) = "OBSERVAÇÃO")
    ∧ (30 ≤ q → q ≤ 70 → get_nivel_alerta (PyVal.num q) = "ATENÇÃO")
    ∧ (70 < q → get_nivel_alerta (PyVal.num q) = "CRÍTICO")
    ∧ (q < 10 → mon_get_categoria_status (PyVal.num q) = "NORMAL (<10mm)")
    ∧ (10 ≤ q → q < 30 →
        mon_get_categoria_status (PyVal.num q) = "OBSERVAÇÃO (10-30mm)")
    ∧ (30 ≤ q → q ≤ 70 →
        mon_get_categoria_status (PyVal.num q) = "ATENÇÃO (30-70mm)")
    ∧ (70 < q → mon_get_categoria_status (PyVal.num q) = "CRÍTICO (>70mm)")
    ∧ get_nivel_alerta (PyVal.num (699/10)) = "ATENÇÃO"
    ∧ get_nivel_alerta (PyVal.num 70) = "ATENÇÃO" := by
  refine ⟨fun h => ?_, fun h1 h2 => ?_, fun h1 h2 => ?_, fun h => ?_,
    fun h => ?_, fun h1 h2 => ?_, fun h1 h2 => ?_, fun h => ?_,
    by norm_num [get_nivel_alerta, PyVal.gtN, PyVal.geN], by decide⟩ <;>
    simp only [get_nivel_alerta, mon_get_categoria_status, PyVal.gtN, PyVal.geN,
      PyVal.isna, decide_eq_true_eq, Bool.false_eq_true, if_false] <;>
    split_ifs <;>
    first
      | rfl
      | linarith

/-- C1 amended, witness at q = 69.9: 30 ≤ 69.9 ≤ 70 gives ATENÇÃO. -/
theorem C1_amended_witness :
    get_nivel_alerta (PyVal.num (699/10)) = "ATENÇÃO" :=
  ((C1_amended (699/10)).2.2.1) (by norm_num) (by norm_num)

/-- C4 counterexample: the claim says the alert classifier returns a
"no data" sentinel, distinct from NORMAL, on NaN input; but the cemaden
revision classifiers (`get_nivel_alerta`, `get_categoria_status`) fall through
every NaN comparison and return NORMAL. -/
theorem C4_counterexample :
    get_nivel_alerta PyVal.nan = "NORMAL"
    ∧ cemaden_get_categoria_status PyVal.nan = "NORMAL" := by
  decide

/-- C4 amended: only the current monitoramento revision's classifier is total
with a "SEM DADOS" sentinel on NaN, distinct from its NORMAL label and never
returned on numeric input; the cemaden classifiers map NaN to NORMAL. -/
theorem C4_amended (v : PyVal) (h : v ≠ PyVal.nan) :
    mon_get_categoria_status v ≠ "SEM DADOS"
    ∧ mon_get_categoria_status PyVal.nan = "SEM DADOS"
    ∧ "SEM DADOS" ≠ "NORMAL (<10mm)"
    ∧ get_nivel_alerta PyVal.nan = "NORMAL" := by
  refine ⟨?_, by decide, by decide, by decide⟩
  cases v with
  | nan => exact absurd rfl h
  | num q =>
    simp only [mon_get_categoria_status, PyVal.isna, PyVal.gtN, PyVal.geN,
      Bool.false_eq_true, if_false]
    split_ifs <;> decide

/-- C4 amended, witness at v = 5 (a numeric value is never "SEM DADOS"). -/
theorem C4_amended_witness :
    mon_get_categoria_status (PyVal.num 5) ≠ "SEM DADOS"
    ∧ mon_get_categoria_status PyVal.nan = "SEM DADOS"
    ∧ "SEM DADOS" ≠ "NORMAL (<10mm)"
    ∧ get_nivel_alerta PyVal.nan = "NORMAL" :=
  C4_amended (PyVal.num 5) (by decide)

/-- C10: the current revision's `get_categoria_status` and the backup
revision's agree on every non-NaN numeric input; they differ exactly on NaN,
where the current revision returns the "SEM DADOS" sentinel and the backup
falls through to its NORMAL label. -/
theorem C10_equivalencia :
    (∀ q : ℚ,
        mon_get_categoria_status (PyVal.num q) = bkp_get_categoria_status (PyVal.num q))
    ∧ mon_get_categoria_status PyVal.nan = "SEM DADOS"
    ∧ bkp_get_categoria_status PyVal.nan = "NORMAL (<10mm)"
    ∧ mon_get_categoria_status PyVal.nan ≠ bkp_get_categoria_status PyVal.nan := by
  refine ⟨fun q => ?_, by decide, by decide, by decide⟩
  simp only [mon_get_categoria_status, bkp_get_categoria_status, PyVal.isna,
    Bool.false_eq_true, if_false]

/-!
Rainfall reconstruction, src/views/monitoramento.py lines 241-242:
`df_res['chuva_delta'] = df_res['chuva_mm'].diff().fillna(0)` followed by
`df_res.loc[df_res['chuva_delta'] < 0, 'chuva_delta'] = 0`.
-/

/-- `Series.diff().fillna(0)` on a column without NaNs: the first element
(whose difference would be NaN) becomes 0; element `i > 0` becomes
`c[i] - c[i-1]`. -/
def diffFillna0 : List ℚ → List ℚ
  | [] => []
  | a :: rest => 0 :: List.zipWith (fun x y => x - y) rest (a :: rest)

/-- Per-tick rainfall deltas reconstructed from the cumulative counter,
negative differences set to 0 (lines 241-242 of src/views/monitoramento.py). -/
def chuva_delta (c : List ℚ) : List ℚ :=
  (diffFillna0 c).map (fun d => if d < 0 then 0 else d)

theorem clamp_eq_max (d : ℚ) : (if d < 0 then 0 else d) = max 0 d := by
  rcases lt_or_le d 0 with h | h
  · rw [if_pos h, max_eq_left h.le]
  · rw [if_neg (not_lt.mpr h), max_eq_right h]

/-- C2: the reconstructed delta series has the same length as the cumulative
series, its first element is 0, and every element i > 0 equals
max(0, c[i] - c[i-1]); in particular [0, 2, 2, 5, 1, 4] yields
[0, 2, 0, 3, 0, 3]. -/
theorem C2_chuva_delta (c : List ℚ) (i : ℕ) (h0 : 0 < i) (hi : i < c.length) :
    (chuva_delta c).length = c.length
    ∧ (chuva_delta c).head? = some 0
    ∧ (chuva_delta c).getD i 0 = max 0 (c.getD i 0 - c.getD (i - 1) 0)
    ∧ chuva_delta [0, 2, 2, 5, 1, 4] = [0, 2, 0, 3, 0, 3] := by
  obtain ⟨a, rest, rfl⟩ : ∃ a rest, c = a :: rest := by
    cases c with
    | nil => simp at hi
    | cons a rest => exact ⟨a, rest, rfl⟩
  obtain ⟨j, rfl⟩ : ∃ j, i = j + 1 := ⟨i - 1, (Nat.succ_pred_eq_of_pos h0).symm⟩
  have hj : j < rest.length := by
    simpa using Nat.lt_of_succ_lt_succ hi
  refine ⟨?_, ?_, ?_, by norm_num [chuva_delta, diffFillna0]⟩
  · simp [chuva_delta, diffFillna0, List.length_zipWith]
  · simp [chuva_delta, diffFillna0]
  · have hz : j < (List.zipWith (fun x y : ℚ => x - y) rest (a :: rest)).length := by
      simp [List.length_zipWith]
      omega
    have hm : j < ((List.zipWith (fun x y : ℚ => x - y) rest (a :: rest)).map
        (fun d => if d < 0 then 0 else d)).length := by
      simpa using hz
    simp only [chuva_delta, diffFillna0, List.map_cons, List.getD_cons_succ,
      Nat.add_sub_cancel]
    rw [List.getD_eq_getElem _ _ hm,
      List.getD_eq_getElem _ _ (by simpa using hi),
      List.getD_eq_getElem _ _ (by omega : j < (a :: rest).length),
      List.getElem_map, List.getElem_zipWith, clamp_eq_max]

/-- C2, witness at c = [0, 2, 2, 5, 1, 4], i = 4 (over the 5→1 counter
reset). -/
theorem C2_chuva_delta_witness :
    (chuva_delta [0, 2, 2, 5, 1, 4]).length = ([0, 2, 2, 5, 1, 4] : List ℚ).length
    ∧ (chuva_delta [0, 2, 2, 5, 1, 4]).head? = some 0
    ∧ (chuva_delta [0, 2, 2, 5, 1, 4]).getD 4 0
        = max 0 (([0, 2, 2, 5, 1, 4] : List ℚ).getD 4 0
            - ([0, 2, 2, 5, 1, 4] : List ℚ).getD (4 - 1) 0)
    ∧ chuva_delta [0, 2, 2, 5, 1, 4] = [0, 2, 0, 3, 0, 3] :=
  C2_chuva_delta [0, 2, 2, 5, 1, 4] 4 (by norm_num) (by norm_num)

theorem sum_chuva_delta_cons (rest : List ℚ) :
    ∀ a : ℚ, List.Chain' (· ≤ ·) (a :: rest) →
      ((List.zipWith (fun x y => x - y) rest (a :: rest)).map
          (fun d => if d < 0 then 0 else d)).sum
        = (a :: rest).getLast (by simp) - a := by
  induction rest with
  | nil => intro a _; simp
  | cons b rs ih =>
    intro a hch
    rw [List.chain'_cons] at hch
    have hba : ¬ b - a < 0 := not_lt.mpr (sub_nonneg.mpr hch.1)
    rw [List.zipWith_cons_cons, List.map_cons, List.sum_cons, if_neg hba,
      List.getLast_cons_cons, ih b hch.2]
    ring

/-- C7: conservation under no-reset — for a non-decreasing, nonempty
cumulative series c, the reconstructed deltas sum to c[-1] - c[0]. -/
theorem C7_conservacao (c : List ℚ) (h : c ≠ []) (hm : List.Chain' (· ≤ ·) c) :
    (chuva_delta c).sum = c.getLast h - c.head h := by
  obtain ⟨a, rest, rfl⟩ := List.exists_cons_of_ne_nil h
  simp only [chuva_delta, diffFillna0, List.map_cons, List.sum_cons,
    List.head_cons]
  rw [if_neg (by norm_num : ¬ (0:ℚ) < 0), zero_add]
  exact sum_chuva_delta_cons rest a hm

/-- C7, witness at c = [0, 2, 2, 5]: deltas [0, 2, 0, 3] sum to 5 = 5 - 0. -/
theorem C7_conservacao_witness :
    (chuva_delta [0, 2, 2, 5]).sum
      = ([0, 2, 2, 5] : List ℚ).getLast (by simp)
        - ([0, 2, 2, 5] : List ℚ).head (by simp) :=
  C7_conservacao [0, 2, 2, 5] (by simp) (by norm_num [List.chain'_cons])

/-!
Deduplication, src/views/monitoramento.py line 226:
`df = df.drop_duplicates(subset=['nome_estacao', 'tempo'], keep='last')`.
-/

/-- One raw row of the `defesa_civil` table (the fields the dedup step keys
on, plus a value column). -/
structure Registro where
  nome_estacao : String
  tempo : ℚ
  temp_ar : ℚ
deriving DecidableEq

/-- The dedup key: `subset=['nome_estacao', 'tempo']`. -/
def chave (r : Registro) : String × ℚ := (r.nome_estacao, r.tempo)

/-- pandas `drop_duplicates(subset, keep='last')`: a row is kept iff no later
row carries the same key; kept rows stay in their original order. -/
def drop_duplicates_last : List Registro → List Registro
  | [] => []
  | r :: rest =>
    if rest.any (fun s => decide (chave s = chave r)) then drop_duplicates_last rest
    else r :: drop_duplicates_last rest

theorem mem_of_mem_drop_duplicates_last {b : Registro} :
    ∀ {l : List Registro}, b ∈ drop_duplicates_last l → b ∈ l := by
  intro l
  induction l with
  | nil => simp [drop_duplicates_last]
  | cons r rest ih =>
    simp only [drop_duplicates_last]
    split_ifs with h
    · exact fun hb => List.mem_cons_of_mem r (ih hb)
    · intro hb
      rcases List.mem_cons.mp hb with hb | hb
      · rw [hb]; exact List.mem_cons_self r rest
      · exact List.mem_cons_of_mem r (ih hb)

theorem pairwise_drop_duplicates_last (l : List Registro) :
    (drop_duplicates_last l).Pairwise (fun a b => chave a ≠ chave b) := by
  induction l with
  | nil => simp [drop_duplicates_last]
  | cons r rest ih =>
    simp only [drop_duplicates_last]
    split_ifs with h
    · exact ih
    · refine List.pairwise_cons.mpr ⟨fun b hb hc => ?_, ih⟩
      exact h (List.any_eq_true.mpr
        ⟨b, mem_of_mem_drop_duplicates_last hb, decide_eq_true hc.symm⟩)

theorem getLast?_cons_of_ne_nil {α : Type} (a : α) {l : List α} (h : l ≠ []) :
    (a :: l).getLast? = l.getLast? := by
  cases l with
  | nil => exact absurd rfl h
  | cons b t => exact List.getLast?_cons_cons

theorem filter_drop_duplicates_last (k : String × ℚ) (l : List Registro) :
    (drop_duplicates_last l).filter (fun r => decide (chave r = k))
      = ((l.filter (fun r => decide (chave r = k))).getLast?).toList := by
  induction l with
  | nil => simp [drop_duplicates_last]
  | cons r rest ih =>
    simp only [drop_duplicates_last]
    split_ifs with h
    · by_cases hk : chave r = k
      · obtain ⟨s, hs, hsk⟩ := List.any_eq_true.mp h
        have hsk' : chave s = chave r := of_decide_eq_true hsk
        have hne : rest.filter (fun r => decide (chave r = k)) ≠ [] := by
          intro hnil
          have hmem : s ∈ rest.filter (fun r => decide (chave r = k)) :=
            List.mem_filter.mpr ⟨hs, decide_eq_true (hsk'.trans hk)⟩
          rw [hnil] at hmem
          exact List.not_mem_nil s hmem
        rw [ih, List.filter_cons, if_pos (by simpa using hk),
          getLast?_cons_of_ne_nil r hne]
      · rw [ih, List.filter_cons, if_neg (by simpa using hk)]
    · have hrest : ∀ s ∈ rest, chave s ≠ chave r := by
        intro s hs hc
        exact h (List.any_eq_true.mpr ⟨s, hs, decide_eq_true hc⟩)
      by_cases hk : chave r = k
      · have h1 : rest.filter (fun r => decide (chave r = k)) = [] := by
          refine List.filter_eq_nil_iff.mpr fun s hs => ?_
          simpa using fun hc => hrest s hs (hc.trans hk.symm)
        have h2 : (drop_duplicates_last rest).filter
            (fun r => decide (chave r = k)) = [] := by
          refine List.filter_eq_nil_iff.mpr fun s hs => ?_
          simpa using fun hc =>
            hrest s (mem_of_mem_drop_duplicates_last hs) (hc.trans hk.symm)
        rw [List.filter_cons, if_pos (by simpa using hk), h2,
          List.filter_cons, if_pos (by simpa using hk), h1]
        rfl
      · rw [List.filter_cons, if_neg (by simpa using hk),
          List.filter_cons, if_neg (by simpa using hk), ih]

/-- C8: after `drop_duplicates(subset=['nome_estacao','tempo'], keep='last')`
there is at most one row per (station, timestamp) key, and the rows retained
for a key are exactly the last input occurrence of that key; in particular two
rows at the same (station, timestamp) with temperatures 25 and 26 reduce to
the single later row. -/
theorem C8_dedup (rows : List Registro) (k : String × ℚ) :
    (drop_duplicates_last rows).Pairwise (fun a b => chave a ≠ chave b)
    ∧ (drop_duplicates_last rows).filter (fun r => decide (chave r = k))
        = ((rows.filter (fun r => decide (chave r = k))).getLast?).toList
    ∧ drop_duplicates_last [Registro.mk "A" 0 25, Registro.mk "A" 0 26]
        = [Registro.mk "A" 0 26] :=
  ⟨pairwise_drop_duplicates_last rows, filter_drop_duplicates_last k rows,
    by simp [drop_duplicates_last, chave]⟩

/-!
Rolling-window anchoring, src/views/monitoramento.py: line 254 filters the
working set by wall clock (`datetime.now() - timedelta(days=1)`); line 289
sets `agora = df_completo['tempo'].max()` (falling back to `datetime.now()`
on an empty frame); lines 292-296 build the 1h/6h/12h window columns against
`agora` and sum `chuva_mm` per station for the 24h total.  Timestamps are
rationals counting minutes; `now` models `datetime.now()`.
-/

/-- One row of the working set after resampling: station name, timestamp in
minutes, per-tick rainfall. -/
structure Leitura where
  nome : String
  tempo : ℚ
  chuva : ℚ
deriving DecidableEq

/-- Line 254: `df = df[df['tempo'] >= (datetime.now() - timedelta(days=1))]`. -/
def filtro24h (now : ℚ) (rows : List Leitura) : List Leitura :=
  rows.filter (fun r => decide (now - 1440 ≤ r.tempo))

/-- Line 289: `agora = df_completo['tempo'].max() if not df_completo.empty
else datetime.now()`. -/
def referenceTime (now : ℚ) (rows : List Leitura) : ℚ :=
  match rows with
  | [] => now
  | r :: rest => rest.foldl (fun acc s => max acc s.tempo) r.tempo

/-- Lines 293-296: per-station sum of `chuva_mm` over rows with
`tempo >= agora - w` (the `.where(cond, 0)` then `groupby().agg('sum')`
pattern). -/
def somaJanela (ref w : ℚ) (rows : List Leitura) (st : String) : ℚ :=
  ((rows.filter (fun r => r.nome == st && decide (ref - w ≤ r.tempo))).map
    (fun r => r.chuva)).sum

/-- Line 296, `'chuva_mm': 'sum'`: the 24h total is the plain per-station sum
over the (already wall-clock-filtered) working set. -/
def soma24h (rows : List Leitura) (st : String) : ℚ :=
  ((rows.filter (fun r => r.nome == st)).map (fun r => r.chuva)).sum

/-- The per-station window aggregates (1h, 6h, 12h, 24h totals) one refresh
computes from its working set. -/
def aggEstacao (now : ℚ) (rows : List Leitura) (st : String) : ℚ × ℚ × ℚ × ℚ :=
  (somaJanela (referenceTime now rows) 60 rows st,
   somaJanela (referenceTime now rows) 360 rows st,
   somaJanela (referenceTime now rows) 720 rows st,
   soma24h rows st)

theorem foldl_max_tempo_mem (l : List Leitura) :
    ∀ a : ℚ, l.foldl (fun acc s => max acc s.tempo) a = a
      ∨ ∃ s ∈ l, l.foldl (fun acc s => max acc s.tempo) a = s.tempo := by
  induction l with
  | nil => exact fun a => Or.inl rfl
  | cons s t ih =>
    intro a
    rcases ih (max a s.tempo) with h | ⟨u, hu, h⟩
    · rcases max_choice a s.tempo with hm | hm
      · exact Or.inl (by rw [List.foldl_cons, h, hm])
      · exact Or.inr ⟨s, List.mem_cons_self s t, by rw [List.foldl_cons, h, hm]⟩
    · exact Or.inr ⟨u, List.mem_cons_of_mem s hu, by rw [List.foldl_cons, h]⟩

theorem le_foldl_max_tempo (l : List Leitura) :
    ∀ a : ℚ, a ≤ l.foldl (fun acc s => max acc s.tempo) a
      ∧ ∀ u ∈ l, u.tempo ≤ l.foldl (fun acc s => max acc s.tempo) a := by
  induction l with
  | nil => exact fun a => ⟨le_refl a, by simp⟩
  | cons s t ih =>
    intro a
    obtain ⟨h1, h2⟩ := ih (max a s.tempo)
    refine ⟨le_trans (le_max_left a s.tempo) h1, fun u hu => ?_⟩
    rcases List.mem_cons.mp hu with rfl | hu
    · exact le_trans (le_max_right a u.tempo) h1
    · exact h2 u hu

theorem aggEstacao_indep (n1 n2 : ℚ) (rows : List Leitura) (st : String) :
    aggEstacao n1 rows st = aggEstacao n2 rows st := by
  cases rows with
  | nil => simp [aggEstacao, somaJanela, soma24h, referenceTime]
  | cons r rest => rfl

/-- The concrete Reading set for the C3 counterexample: one station with rows
at minutes 100 and 1500, per-tick rainfalls 5 and 1. -/
def linhasExemplo : List Leitura :=
  [Leitura.mk "A" 100 5, Leitura.mk "A" 1500 1]

/-- C3 counterexample: the claim says two refreshes over the same Reading set
produce the same window aggregates; but the working set is pre-filtered by
wall clock (line 254), so a refresh at minute 1500 and one at minute 2000 over
the same rows disagree (24h totals 6 vs 1). -/
theorem C3_counterexample :
    aggEstacao 1500 (filtro24h 1500 linhasExemplo) "A"
      ≠ aggEstacao 2000 (filtro24h 2000 linhasExemplo) "A" := by
  norm_num [aggEstacao, filtro24h, somaJanela, soma24h, referenceTime,
    linhasExemplo, max_def]

/-- C3 amended: the reference time anchoring the 1h/6h/12h windows is the
maximum timestamp present in the (station-filter-free) working set, not the
wall-clock time of the refresh, and two refreshes whose wall-clock 24h cutoff
(line 254) selects the same working set produce identical window aggregates;
refreshes over the same Reading set at different wall-clock times may differ,
because the 24h cutoff itself uses wall-clock `datetime.now()`. -/
theorem C3_amended (now now1 now2 : ℚ) (rows : List Leitura) (r : Leitura)
    (hr : r ∈ rows) (heq : filtro24h now1 rows = filtro24h now2 rows)
    (st : String) :
    (∃ s ∈ rows, referenceTime now rows = s.tempo)
    ∧ (∀ u ∈ rows, u.tempo ≤ referenceTime now rows)
    ∧ aggEstacao now1 (filtro24h now1 rows) st
        = aggEstacao now2 (filtro24h now2 rows) st := by
  obtain ⟨a, rest, rfl⟩ : ∃ a rest, rows = a :: rest := by
    cases rows with
    | nil => exact absurd hr (List.not_mem_nil r)
    | cons a rest => exact ⟨a, rest, rfl⟩
  simp only [referenceTime]
  refine ⟨?_, ?_, ?_⟩
  · rcases foldl_max_tempo_mem rest a.tempo with h | ⟨u, hu, h⟩
    · exact ⟨a, List.mem_cons_self a rest, h⟩
    · exact ⟨u, List.mem_cons_of_mem a hu, h⟩
  · intro u hu
    obtain ⟨h1, h2⟩ := le_foldl_max_tempo rest a.tempo
    rcases List.mem_cons.mp hu with rfl | hu
    · exact h1
    · exact h2 u hu
  · rw [heq]
    exact aggEstacao_indep now1 now2 _ st

/-- C3 amended, witness: a single row at minute 0; two refreshes at minutes 3
and 7 filter identically and agree, and the reference time is the row's own
timestamp. -/
theorem C3_amended_witness :
    (∃ s ∈ [Leitura.mk "A" 0 1], referenceTime 5 [Leitura.mk "A" 0 1] = s.tempo)
    ∧ (∀ u ∈ [Leitura.mk "A" 0 1], u.tempo ≤ referenceTime 5 [Leitura.mk "A" 0 1])
    ∧ aggEstacao 3 (filtro24h 3 [Leitura.mk "A" 0 1]) "A"
        = aggEstacao 7 (filtro24h 7 [Leitura.mk "A" 0 1]) "A" :=
  C3_amended 5 3 7 [Leitura.mk "A" 0 1] (Leitura.mk "A" 0 1)
    (List.mem_cons_self (Leitura.mk "A" 0 1) []) (by norm_num [filtro24h]) "A"

/-!
Heat index, src/views/monitoramento.py lines 48-52 (`calcular_sensacao`):
a NaN/None input returns `t` unchanged, as does the one numeric input where
the formula raises (`273.15 + t == 0` makes `1/(273.15 + t)` a float division
by zero, caught by the bare `except`); every other numeric input returns the
Steadman-style formula.  Values that may be NaN/None are modelled by `RVal`
over the reals. -/

/-- A temperature or humidity cell: NaN/None or a real number. -/
inductive RVal where
  | nan : RVal
  | num : ℝ → RVal

/-- The formula on line 51 of src/views/monitoramento.py. -/
noncomputable def sensacaoFormula (t rh : ℝ) : ℝ :=
  t + 0.5555 * (6.11 * Real.exp (5417.7530 * (1 / 273.16 - 1 / (273.15 + t)))
    * (rh / 100) - 10)

/-- `calcular_sensacao` of src/views/monitoramento.py lines 48-52: the
`pd.isna` guards return `t`; the `except` branch (division by zero at
`t = -273.15`) also returns `t`; otherwise the formula value is returned. -/
noncomputable def calcular_sensacao : RVal → RVal → RVal
  | .nan, _ => .nan
  | .num t, .nan => .num t
  | .num t, .num rh =>
    if 273.15 + t = 0 then .num t else .num (sensacaoFormula t rh)

/-- C9: `calcular_sensacao` returns t unchanged when either input is NaN/None
or when the formula raises (division by zero at t = -273.15), never
propagating an exception (it is a total function); on other numeric inputs it
returns `t + 0.5555 * (6.11 * exp(5417.753 * (1/273.16 - 1/(273.15+t))) *
(rh/100) - 10)`; in particular temperature 30 with null humidity gives 30. -/
theorem C9_sensacao (t rh : ℝ) (h : 273.15 + t ≠ 0) :
    (∀ v, calcular_sensacao RVal.nan v = RVal.nan)
    ∧ calcular_sensacao (RVal.num t) RVal.nan = RVal.num t
    ∧ calcular_sensacao (RVal.num 30) RVal.nan = RVal.num 30
    ∧ calcular_sensacao (RVal.num t) (RVal.num rh) = RVal.num (sensacaoFormula t rh)
    ∧ calcular_sensacao (RVal.num (-273.15)) (RVal.num rh) = RVal.num (-273.15) := by
  refine ⟨fun v => by cases v <;> rfl, rfl, rfl, ?_, ?_⟩
  · simp only [calcular_sensacao]
    rw [if_neg h]
  · simp only [calcular_sensacao]
    rw [if_pos (by norm_num)]

/-- C9, witness at t = 30, rh = 50 (273.15 + 30 ≠ 0). -/
theorem C9_sensacao_witness :
    (∀ v, calcular_sensacao RVal.nan v = RVal.nan)
    ∧ calcular_sensacao (RVal.num 30) RVal.nan = RVal.num 30
    ∧ calcular_sensacao (RVal.num 30) RVal.nan = RVal.num 30
    ∧ calcular_sensacao (RVal.num 30) (RVal.num 50) = RVal.num (sensacaoFormula 30 50)
    ∧ calcular_sensacao (RVal.num (-273.15)) (RVal.num 50) = RVal.num (-273.15) :=
  C9_sensacao 30 50 (by norm_num)

/-!
Station-name normalization, src/views/cemaden.py lines 62-66
(`limpar_nome_estacao`): `nome = nome_sujo.replace("CEMADEN - ", "")`, then
`nome = re.sub(r'\s*[\(\[].*?[\)\]]', '', nome)`, then `nome.strip()`.
Strings are processed as `List Char`; the two left-to-right scanning passes
take a fuel argument (instantiated with the list length, an upper bound on
the number of scan steps) so that they are structurally recursive.
-/

/-- Python `\s` (and the `str.strip` whitespace set) restricted to its ASCII
core, which covers every character occurring in station names. -/
def isWs (c : Char) : Bool :=
  c == ' ' || c == '\t' || c == '\n' || c == '\r' || c == '\x0b' || c == '\x0c'

/-- The literal source tag deleted by `replace("CEMADEN - ", "")`. -/
def cemadenTag : List Char := "CEMADEN - ".data

/-- Python `str.replace("CEMADEN - ", "")`: scan left to right, drop each
occurrence of the tag and continue after it. -/
def removeTagAux : Nat → List Char → List Char
  | 0, s => s
  | _ + 1, [] => []
  | fuel + 1, c :: rest =>
    if cemadenTag.isPrefixOf (c :: rest) then
      removeTagAux fuel ((c :: rest).drop cemadenTag.length)
    else c :: removeTagAux fuel rest

/-- `nome_sujo.replace("CEMADEN - ", "")`. -/
def removeTag (s : List Char) : List Char := removeTagAux s.length s

/-- The non-greedy tail `.*?[\)\]]` of the regex: skip to the first `)` or
`]`; fail at a newline (`.` does not match newline) or at end of string; on
success return the suffix after the closing bracket. -/
def findCloser : List Char → Option (List Char)
  | [] => none
  | c :: rest =>
    if c == ')' || c == ']' then some rest
    else if c == '\n' then none
    else findCloser rest

/-- Attempt to match `\s*[\(\[].*?[\)\]]` starting at the head of `s`
(greedy `\s*` run, then an opening bracket, then the non-greedy tail); on
success return the suffix following the whole match. -/
def matchHere (s : List Char) : Option (List Char) :=
  match s.dropWhile isWs with
  | [] => none
  | c :: rest => if c == '(' || c == '[' then findCloser rest else none

/-- `re.sub(r'\s*[\(\[].*?[\)\]]', '', nome)`: repeatedly delete the
leftmost match and continue scanning right after it. -/
def subBracketsAux : Nat → List Char → List Char
  | 0, s => s
  | _ + 1, [] => []
  | fuel + 1, c :: rest =>
    match matchHere (c :: rest) with
    | some after => subBracketsAux fuel after
    | none => c :: subBracketsAux fuel rest

/-- The regex-substitution pass. -/
def subBrackets (s : List Char) : List Char := subBracketsAux s.length s

/-- Python `str.strip()`. -/
def pyStrip (s : List Char) : List Char :=
  ((s.dropWhile isWs).reverse.dropWhile isWs).reverse

/-- src/views/cemaden.py, `limpar_nome_estacao` (lines 62-66), on string
input (the non-string branch `str(nome_sujo)` does not arise here). -/
def limpar_nome_estacao (s : String) : String :=
  String.mk (pyStrip (subBrackets (removeTag s.data)))

/-- Whether the literal tag occurs anywhere in `l`; when it does not, one
`replace` pass is the identity. -/
def containsTag : List Char → Bool
  | [] => false
  | c :: rest => cemadenTag.isPrefixOf (c :: rest) || containsTag rest

/-- Whether `l` contains an opening bracket; when it does not, the regex
pass is the identity. -/
def hasOpener (l : List Char) : Bool :=
  l.any (fun c => c == '(' || c == '[')

theorem removeTagAux_id :
    ∀ (fuel : Nat) (l : List Char), containsTag l = false →
      removeTagAux fuel l = l := by
  intro fuel
  induction fuel with
  | zero => exact fun l _ => rfl
  | succ n ih =>
    intro l hl
    cases l with
    | nil => rfl
    | cons c rest =>
      rw [containsTag, Bool.or_eq_false_iff] at hl
      rw [removeTagAux, if_neg (by simp [hl.1]), ih rest hl.2]

theorem matchHere_none_of_no_opener {l : List Char} (h : hasOpener l = false) :
    matchHere l = none := by
  unfold matchHere
  cases hd : l.dropWhile isWs with
  | nil => rfl
  | cons c rest =>
    have hc : c ∈ l :=
      List.Sublist.mem (by rw [hd]; exact List.mem_cons_self c rest)
        (List.dropWhile_sublist isWs)
    have hop : (c == '(' || c == '[') = false := by
      have := List.any_eq_false.mp h c hc
      simpa using this
    simp [hop]

theorem subBracketsAux_id :
    ∀ (fuel : Nat) (l : List Char), hasOpener l = false →
      subBracketsAux fuel l = l := by
  intro fuel
  induction fuel with
  | zero => exact fun l _ => rfl
  | succ n ih =>
    intro l hl
    cases l with
    | nil => rfl
    | cons c rest =>
      have hrest : hasOpener rest = false := by
        rw [hasOpener, List.any_cons, Bool.or_eq_false_iff] at hl
        exact hl.2
      rw [subBracketsAux, matchHere_none_of_no_opener hl, ih rest hrest]

theorem headDropWhileFalse (p : Char → Bool) (l : List Char) {c : Char}
    (h : (l.dropWhile p).head? = some c) : p c = false := by
  have hm := List.head?_dropWhile_not p l
  rw [h] at hm
  exact hm

theorem dropWhile_eq_self_of_head (p : Char → Bool) (l : List Char)
    (h : ∀ c, l.head? = some c → p c = false) : l.dropWhile p = l := by
  cases l with
  | nil => rfl
  | cons c rest =>
    rw [List.dropWhile_cons, if_neg (by simp [h c rfl])]

theorem pyStrip_trimmed (s : List Char) :
    (∀ c, (pyStrip s).head? = some c → isWs c = false)
    ∧ (∀ c, (pyStrip s).getLast? = some c → isWs c = false) := by
  constructor
  · intro c hc
    rw [pyStrip, List.head?_reverse] at hc
    have hBne : (s.dropWhile isWs).reverse.dropWhile isWs ≠ [] := by
      intro hnil
      rw [hnil] at hc
      exact Option.noConfusion hc
    have hlast : ((s.dropWhile isWs).reverse.dropWhile isWs).getLast?
        = (s.dropWhile isWs).reverse.getLast? := by
      conv_rhs =>
        rw [← List.takeWhile_append_dropWhile isWs (s.dropWhile isWs).reverse]
      rw [List.getLast?_append_of_ne_nil _ hBne]
    rw [hlast, List.getLast?_reverse] at hc
    exact headDropWhileFalse isWs s hc
  · intro c hc
    rw [pyStrip, List.getLast?_reverse] at hc
    exact headDropWhileFalse isWs (s.dropWhile isWs).reverse hc

theorem pyStrip_of_trimmed (s : List Char)
    (h1 : ∀ c, s.head? = some c → isWs c = false)
    (h2 : ∀ c, s.getLast? = some c → isWs c = false) : pyStrip s = s := by
  unfold pyStrip
  rw [dropWhile_eq_self_of_head isWs s h1,
    dropWhile_eq_self_of_head isWs s.reverse
      (fun c hc => h2 c (by rwa [List.head?_reverse] at hc)),
    List.reverse_reverse]

/-- C5 counterexample: the normalizer is not idempotent — deleting the
bracketed segment of "CEMADEN(x) - Y" creates a fresh "CEMADEN - " prefix,
so the first pass yields "CEMADEN - Y" and a second pass strips it to "Y". -/
theorem C5_counterexample :
    limpar_nome_estacao (limpar_nome_estacao "CEMADEN(x) - Y")
      ≠ limpar_nome_estacao "CEMADEN(x) - Y" := by
  decide

/-- C5 amended: the normalizer is idempotent on every string whose normalized
form contains no occurrence of the literal "CEMADEN - " tag and no opening
bracket (in particular on all real station names); it is not idempotent in
general. -/
theorem C5_amended (s : String)
    (h1 : containsTag (limpar_nome_estacao s).data = false)
    (h2 : hasOpener (limpar_nome_estacao s).data = false) :
    limpar_nome_estacao (limpar_nome_estacao s) = limpar_nome_estacao s := by
  have h3 : pyStrip (limpar_nome_estacao s).data = (limpar_nome_estacao s).data :=
    pyStrip_of_trimmed _
      (pyStrip_trimmed (subBrackets (removeTag s.data))).1
      (pyStrip_trimmed (subBrackets (removeTag s.data))).2
  show String.mk
      (pyStrip (subBrackets (removeTag (limpar_nome_estacao s).data)))
    = limpar_nome_estacao s
  rw [show removeTag (limpar_nome_estacao s).data = (limpar_nome_estacao s).data
      from removeTagAux_id _ _ h1,
    show subBrackets (limpar_nome_estacao s).data = (limpar_nome_estacao s).data
      from subBracketsAux_id _ _ h2,
    h3]

/-- C5 amended, witness at "A (x)" (normalizes to "A", which is tag-free and
bracket-free). -/
theorem C5_amended_witness :
    limpar_nome_estacao (limpar_nome_estacao "A (x)")
      = limpar_nome_estacao "A (x)" :=
  C5_amended "A (x)" (by decide) (by decide)

/-- C6 counterexample: the claim says the normalizer collapses internal
whitespace runs to single spaces; but `limpar_nome_estacao` never rewrites
interior whitespace — the double space in "a  b" survives both passes and the
trim. -/
theorem C6_counterexample :
    limpar_nome_estacao "a  b" = "a  b" ∧ ("a  b" : String) ≠ "a b" := by
  decide

/-- C6 amended: the normalizer strips every occurrence of the literal source
tag, removes bracketed segments together with the whitespace run preceding
them, and trims both ends — it does NOT collapse internal whitespace runs.
On tag-free, bracket-free input it is exactly a trim; its output never starts
or ends with whitespace; and the Scenario B example evaluates as claimed. -/
theorem C6_amended (s : String)
    (h1 : containsTag s.data = false)
    (h2 : hasOpener s.data = false) :
    limpar_nome_estacao "CEMADEN - Igarapé do Quarenta (Zona Leste)"
        = "Igarapé do Quarenta"
    ∧ limpar_nome_estacao s = String.mk (pyStrip s.data)
    ∧ (∀ u : String, ∀ c : Char,
        ((limpar_nome_estacao u).data.head? = some c → isWs c = false)
        ∧ ((limpar_nome_estacao u).data.getLast? = some c → isWs c = false)) := by
  refine ⟨by decide, ?_, fun u c =>
    ⟨fun hc => (pyStrip_trimmed _).1 c hc, fun hc => (pyStrip_trimmed _).2 c hc⟩⟩
  show String.mk (pyStrip (subBrackets (removeTag s.data))) = _
  rw [show removeTag s.data = s.data from removeTagAux_id _ _ h1,
    show subBrackets s.data = s.data from subBracketsAux_id _ _ h2]

/-- C6 amended, witness at "  x  " (tag-free and bracket-free, normalizes to
its trim "x"). -/
theorem C6_amended_witness :
    limpar_nome_estacao "CEMADEN - Igarapé do Quarenta (Zona Leste)"
        = "Igarapé do Quarenta"
    ∧ limpar_nome_estacao "  x  " = String.mk (pyStrip "  x  ".data)
    ∧ (∀ u : String, ∀ c : Char,
        ((limpar_nome_estacao u).data.head? = some c → isWs c = false)
        ∧ ((limpar_nome_estacao u).data.getLast? = some c → isWs c = false)) :=
  C6_amended "  x  " (by decide) (by decide)

end Monitoramento
